import Mathlib

/-!
Shallow embedding of the two operational scripts of this repository:
`src/tools/ssl-cert-monitor.py` (SSL certificate monitor / renewal tool) and
`src/tools/system-monitor.py` (system metrics agent).

Effectful operations (TLS handshakes, subprocess invocations, file reads) are
modelled by passing their observable outcome in as an explicit argument: a
subprocess call is a value of `SubprocessOutcome` (either it completed with an
exit code and captured output, or the call raised an exception such as a
timeout), and a file read is an `Except` value.  Python dictionaries with a
branch-dependent key set are modelled as inductive types with one constructor
per shape.  Machine arithmetic is exact (`Int`, `Rat`), matching Python's
arbitrary-precision integers; timestamps are integers in microseconds, the
resolution of Python `datetime`.
-/

/-- Outcome of a `subprocess.run` call: either the child process ran to
completion with an exit code and captured stdout/stderr, or the call itself
raised an exception (`TimeoutExpired`, `FileNotFoundError`, ...), carrying the
stringified exception. -/
inductive SubprocessOutcome where
  | completed (returncode : Int) (stdout stderr : String)
  | raised (msg : String)
deriving DecidableEq, Repr

/-! ## ssl-cert-monitor.py -/

/-- Configuration of `SSLCertMonitor` (`load_config`): a JSON file shallowly
overlaid on hardcoded defaults.  Thresholds are integers. -/
structure Config where
  domains : List String
  warning_days : Int
  critical_days : Int
  slack_webhook : String
  email_alerts : String
  auto_renew : Bool
  certbot_email : String
  log_file : String
deriving DecidableEq, Repr

/-- Hardcoded defaults of `load_config`.  The three environment-variable
lookups (`SLACK_WEBHOOK_URL`, `ALERT_EMAIL`, `CERTBOT_EMAIL`) default to the
empty string when unset, which is how they are modelled here. -/
def default_config : Config :=
  { domains := ["api.mycompany.com", "app.mycompany.com", "www.mycompany.com"]
    warning_days := 30
    critical_days := 7
    slack_webhook := ""
    email_alerts := ""
    auto_renew := false
    certbot_email := ""
    log_file := "/var/log/ssl-monitor.log" }

/-- Result dictionary of `get_cert_info`.  The success and failure branches
return dictionaries with different key sets, hence one constructor each:
`valid` carries issuer, subject, expiry, days-until-expiry and SAN list;
`err` carries the stringified exception.  Both carry `days_until_expiry`. -/
inductive CertRecord where
  | valid (domain : String) (issuer subject : List (String × String))
      (expiry_date : Int) (days_until_expiry : Int) (san_domains : List String)
  | err (domain : String) (error : String) (days_until_expiry : Int)
deriving DecidableEq, Repr

/-- Domain field, present in both shapes of the record. -/
def CertRecord.domain : CertRecord → String
  | .valid d _ _ _ _ _ => d
  | .err d _ _ => d

/-- Status field of the record, as the string stored in the dictionary. -/
def CertRecord.status : CertRecord → String
  | .valid _ _ _ _ _ _ => "valid"
  | .err _ _ _ => "error"

/-- Days-until-expiry field, present in both shapes of the record. -/
def CertRecord.days_until_expiry : CertRecord → Int
  | .valid _ _ _ _ d _ => d
  | .err _ _ d => d

/-- Peer certificate as returned by a successful TLS handshake
(`ssock.getpeercert()`), with `notAfter` already parsed by `strptime` to a
timestamp in microseconds. -/
structure PeerCert where
  notAfter : Int
  issuer : List (String × String)
  subject : List (String × String)
  subjectAltName : List String
deriving DecidableEq, Repr

/-- Observable outcome of the connect/handshake/parse sequence inside the
`try` block of `get_cert_info`: either a peer certificate was obtained and
parsed, or some step (DNS, connect, timeout, handshake, `strptime`) raised an
exception with the given stringified message. -/
inductive HandshakeOutcome where
  | ok (cert : PeerCert)
  | exn (msg : String)
deriving DecidableEq, Repr

/-- Microseconds per day; `timedelta.days` is the floor of the time difference
in days, at microsecond resolution. -/
def usPerDay : Int := 86400000000

/-- Embedding of `SSLCertMonitor.get_cert_info`.  `now` is `datetime.now()` in
microseconds.  On success the record has status `valid` and
`days_until_expiry = (expiry_date - datetime.now()).days`, the floor of the
difference in whole days (`Int.fdiv` floors toward negative infinity, exactly
like `timedelta.days`).  On any exception the record has status `error`, the
stringified exception, and the sentinel `days_until_expiry = -1`. -/
def get_cert_info (domain : String) (now : Int) (outcome : HandshakeOutcome) :
    CertRecord :=
  match outcome with
  | .ok cert =>
      .valid domain cert.issuer cert.subject cert.notAfter
        (Int.fdiv (cert.notAfter - now) usPerDay) cert.subjectAltName
  | .exn e => .err domain e (-1)

/-- Alert dictionary produced by `analyze_results`. -/
structure Alert where
  level : String
  domain : String
  message : String
deriving DecidableEq, Repr

/-- Body of the `for cert in results` loop of `analyze_results`, acting on the
`(alerts, renewals_needed)` accumulator pair. -/
def analyze_step (config : Config) (acc : List Alert × List String)
    (cert : CertRecord) : List Alert × List String :=
  match cert with
  | .err domain error _ =>
      (acc.1 ++ [⟨"critical", domain, "Certificate check failed: " ++ error⟩],
       acc.2)
  | .valid domain _ _ _ days_left _ =>
      if days_left ≤ config.critical_days then
        (acc.1 ++
           [⟨"critical", domain,
             "Certificate expires in " ++ toString days_left ++ " days!"⟩],
         acc.2 ++ [domain])
      else if days_left ≤ config.warning_days then
        (acc.1 ++
           [⟨"warning", domain,
             "Certificate expires in " ++ toString days_left ++ " days"⟩],
         acc.2)
      else acc

/-- Embedding of `SSLCertMonitor.analyze_results`: one pass over the records,
appending alerts and renewal domains in input order, returning the pair
`(alerts, renewals_needed)`. -/
def analyze_results (config : Config) (results : List CertRecord) :
    List Alert × List String :=
  results.foldl (analyze_step config) ([], [])

/-- Per-record alert of `analyze_results`: an error record always yields a
critical "check failed" alert; a valid record yields a critical alert at
`days ≤ critical_days`, a warning alert at `critical_days < days ≤
warning_days`, and no alert otherwise. -/
def alertOf (config : Config) : CertRecord → Option Alert
  | .err domain error _ =>
      some ⟨"critical", domain, "Certificate check failed: " ++ error⟩
  | .valid domain _ _ _ days_left _ =>
      if days_left ≤ config.critical_days then
        some ⟨"critical", domain,
          "Certificate expires in " ++ toString days_left ++ " days!"⟩
      else if days_left ≤ config.warning_days then
        some ⟨"warning", domain,
          "Certificate expires in " ++ toString days_left ++ " days"⟩
      else none

/-- Whether a record falls in the critical days-until-expiry bucket of
`analyze_results` (only valid records qualify; error records hit `continue`
before the threshold comparison). -/
def needsRenewal (config : Config) : CertRecord → Bool
  | .valid _ _ _ _ days_left _ => days_left ≤ config.critical_days
  | .err _ _ _ => false

/-- Command line built by `renew_certificate`: the fixed certbot invocation,
with `--email` appended when `certbot_email` is set (Python truthiness of a
string is non-emptiness). -/
def certbot_cmd (config : Config) (domain : String) : List String :=
  ["certbot", "renew", "--domain", domain, "--non-interactive", "--agree-tos"]
    ++ (if config.certbot_email ≠ "" then ["--email", config.certbot_email]
        else [])

/-- Embedding of `SSLCertMonitor.reload_web_server` as the trace of subprocess
invocations it performs, given the outcome `runP` of each command.  It probes
`nginx -t` first; on exit 0 it reloads nginx and stops; otherwise it probes
`apache2ctl configtest` and on exit 0 reloads apache2.  An exception from any
call is caught by the surrounding `try` (ending the function), so the raising
command is the last one attempted. -/
def reload_web_server (runP : List String → SubprocessOutcome) :
    List (List String) :=
  match runP ["nginx", "-t"] with
  | .raised _ => [["nginx", "-t"]]
  | .completed rc _ _ =>
      if rc = 0 then
        [["nginx", "-t"], ["systemctl", "reload", "nginx"]]
      else
        match runP ["apache2ctl", "configtest"] with
        | .raised _ => [["nginx", "-t"], ["apache2ctl", "configtest"]]
        | .completed rc2 _ _ =>
            if rc2 = 0 then
              [["nginx", "-t"], ["apache2ctl", "configtest"],
               ["systemctl", "reload", "apache2"]]
            else
              [["nginx", "-t"], ["apache2ctl", "configtest"]]

/-- Embedding of `SSLCertMonitor.renew_certificate`, returning the boolean
result of the Python function together with the trace of subprocess commands
invoked.  With `auto_renew` disabled it returns `False` immediately, invoking
nothing.  Otherwise it runs certbot with a 300-second timeout: on exit 0 it
also reloads the web server and returns `True`; on non-zero exit or on an
exception (caught by the `except` clause) it returns `False`. -/
def renew_certificate (config : Config) (domain : String)
    (runP : List String → SubprocessOutcome) : Bool × List (List String) :=
  if ¬ config.auto_renew then
    (false, [])
  else
    let cmd := certbot_cmd config domain
    match runP cmd with
    | .raised _ => (false, [cmd])
    | .completed rc _ _ =>
        if rc = 0 then (true, cmd :: reload_web_server runP)
        else (false, [cmd])

/-- Per-domain status marker printed by `main` in human output mode: the
thresholds 7 and 30 are hardcoded literals there, not read from the
configuration.  (The emoji prefixes of the markers are omitted.) -/
def mainHumanStatus (days : Int) : String :=
  if days ≤ 7 then "CRITICAL"
  else if days ≤ 30 then "WARNING"
  else "OK"

/-- Valid certificate record with the given days-until-expiry and arbitrary
fixed remaining fields, used to compare the printed status with the alert
level. -/
def sampleValidRecord (days : Int) : CertRecord :=
  .valid "www.mycompany.com" [] [] 0 days []

/-- Whether, for a valid record with the given days-until-expiry, the status
marker printed by `main`'s human output agrees with the alert level produced
by `analyze_results` under the given configuration (no alert ↔ OK,
critical ↔ CRITICAL, warning ↔ WARNING). -/
def humanStatusAgrees (config : Config) (days : Int) : Bool :=
  match (analyze_results config [sampleValidRecord days]).1 with
  | [] => mainHumanStatus days == "OK"
  | a :: _ =>
      (a.level == "critical" && mainHumanStatus days == "CRITICAL")
        || (a.level == "warning" && mainHumanStatus days == "WARNING")

/-! ## system-monitor.py -/

/-- Python `str.split()` with no argument: split on runs of whitespace,
dropping empty tokens. -/
def pythonSplitWS (s : String) : List String :=
  (s.split Char.isWhitespace).filter (fun t => t ≠ "")

/-- Numeric value of a non-empty all-digit string. -/
def decDigits? (s : String) : Option Nat :=
  if s.length > 0 && s.toList.all Char.isDigit then
    some (s.toList.foldl (fun n c => 10 * n + (c.toNat - 48)) 0)
  else none

/-- Python `float()` restricted to the plain decimal literals that occur in
`/proc/loadavg` fields: optional sign, digits, optional fractional part,
parsed exactly into a rational.  Returns `none` where `float()` raises
`ValueError`. -/
def pythonFloat? (s : String) : Option ℚ :=
  let t := s.trim
  let sgn : ℚ := if t.startsWith "-" then -1 else 1
  let u := if t.startsWith "-" || t.startsWith "+" then t.drop 1 else t
  match u.splitOn "." with
  | [w] => (decDigits? w).map (fun n => sgn * n)
  | [w, f] =>
      if w = "" && f = "" then none
      else
        match (if w = "" then some 0 else decDigits? w),
            (if f = "" then some 0 else decDigits? f) with
        | some a, some b => some (sgn * ((a : ℚ) + (b : ℚ) / (10 ^ f.length)))
        | _, _ => none
  | _ => none

/-- Python `round` to the nearest integer: ties go to the even integer
(banker's rounding), on the exact rational model of the value. -/
def roundHalfEven (q : ℚ) : ℤ :=
  if q - ⌊q⌋ < 1 / 2 then ⌊q⌋
  else if q - ⌊q⌋ > 1 / 2 then ⌊q⌋ + 1
  else if ⌊q⌋ % 2 = 0 then ⌊q⌋ else ⌊q⌋ + 1

/-- Python `round(x, 2)` on the exact rational model. -/
def pythonRound2 (q : ℚ) : ℚ := (roundHalfEven (q * 100) : ℚ) / 100

/-- Sub-record of `get_system_info`: on success the three memory fields, on
any exception an error-only record. -/
inductive SystemInfo where
  | ok (memory_total_bytes memory_available_bytes : ℤ)
      (memory_used_percent : ℚ)
  | err (msg : String)
deriving DecidableEq, Repr

/-- Whether the sub-record is the error-only shape. -/
def SystemInfo.isErr : SystemInfo → Bool
  | .err _ => true
  | .ok _ _ _ => false

/-- Substring test, `needle in line` for a non-empty needle: `splitOn` yields
more than one part exactly when the needle occurs. -/
def containsTok (line needle : String) : Bool :=
  (line.splitOn needle).length > 1

/-- Second whitespace-separated field of a meminfo line converted by `int()`:
`none` models the `IndexError`/`ValueError` raise. -/
def memField? (line : String) : Option Int :=
  match (pythonSplitWS line).get? 1 with
  | none => none
  | some w => w.toInt?

/-- The `for line in meminfo.split(chr 10)` scan of `get_system_info`,
threading the `mem_total` and `mem_available` accumulators (later matching
lines overwrite earlier ones); `none` models an exception escaping the
loop. -/
def scanMeminfo : List String → Int → Int → Option (Int × Int)
  | [], t, a => some (t, a)
  | line :: rest, t, a =>
      if containsTok line "MemTotal:" then
        match memField? line with
        | none => none
        | some v => scanMeminfo rest (v * 1024) a
      else if containsTok line "MemAvailable:" then
        match memField? line with
        | none => none
        | some v => scanMeminfo rest t (v * 1024)
      else scanMeminfo rest t a

/-- Embedding of `get_system_info`.  The input is the outcome of reading
`/proc/meminfo`: the file's content, or the stringified exception of a failed
read.  Exception message texts raised during parsing are abstracted to a
fixed description. -/
def get_system_info (meminfo : Except String String) : SystemInfo :=
  match meminfo with
  | .error e => .err ("Failed to get memory info: " ++ e)
  | .ok content =>
      match scanMeminfo (content.splitOn "\n") 0 0 with
      | none => .err "Failed to get memory info: parse exception"
      | some (mem_total, mem_available) =>
          let mem_used_percent : ℚ :=
            if mem_total > 0 then
              ((mem_total - mem_available : ℤ) : ℚ) / (mem_total : ℚ) * 100
            else 0
          .ok mem_total mem_available (pythonRound2 mem_used_percent)

/-- Sub-record of `get_disk_usage`. -/
inductive DiskInfo where
  | ok (disk_total_bytes disk_used_bytes disk_available_bytes : ℤ)
      (disk_used_percent : ℚ)
  | err (msg : String)
deriving DecidableEq, Repr

/-- Whether the sub-record is the error-only shape. -/
def DiskInfo.isErr : DiskInfo → Bool
  | .err _ => true
  | .ok _ _ _ _ => false

/-- Embedding of `get_disk_usage`, over the outcome of
`subprocess.run(df -B1 /)`.  On exit 0 it parses the second line of stdout
(fields 1, 2, 3 as total/used/available); an `IndexError` or `ValueError`
there is caught by the outer `except` (message text abstracted); a non-zero
exit or fewer than two lines yields the fixed parse-failure record. -/
def get_disk_usage (df : SubprocessOutcome) : DiskInfo :=
  match df with
  | .raised e => .err ("Failed to get disk usage: " ++ e)
  | .completed rc out _ =>
      if rc = 0 then
        let lines := out.trim.splitOn "\n"
        if lines.length ≥ 2 then
          let parts := pythonSplitWS ((lines.get? 1).getD "")
          match (parts.get? 1).bind String.toInt?,
              (parts.get? 2).bind String.toInt?,
              (parts.get? 3).bind String.toInt? with
          | some total, some used, some available =>
              let used_percent : ℚ :=
                if total > 0 then (used : ℚ) / (total : ℚ) * 100 else 0
              .ok total used available (pythonRound2 used_percent)
          | _, _, _ =>
              .err "Failed to get disk usage: parse exception"
        else .err "Failed to parse df output"
      else .err "Failed to parse df output"

/-- Sub-record of `get_cpu_info`. -/
inductive CpuInfo where
  | ok (load_1min load_5min load_15min : ℚ)
  | err (msg : String)
deriving DecidableEq, Repr

/-- Whether the sub-record is the error-only shape. -/
def CpuInfo.isErr : CpuInfo → Bool
  | .err _ => true
  | .ok _ _ _ => false

/-- Embedding of `get_cpu_info`, over the outcome of reading
`/proc/loadavg`: the first three whitespace-separated fields converted by
`float()`; any exception (read failure, missing field, bad literal) yields
the error-only record. -/
def get_cpu_info (loadavg : Except String String) : CpuInfo :=
  match loadavg with
  | .error e => .err ("Failed to get CPU info: " ++ e)
  | .ok content =>
      let fields := pythonSplitWS content.trim
      match (fields.get? 0).bind pythonFloat?,
          (fields.get? 1).bind pythonFloat?,
          (fields.get? 2).bind pythonFloat? with
      | some a, some b, some c => .ok a b c
      | _, _, _ => .err "Failed to get CPU info: parse exception"

/-- Sub-record of `get_network_info`: both connectivity booleans, or an
error-only record. -/
inductive NetworkInfo where
  | ok (dns_working internet_reachable : Bool)
  | err (msg : String)
deriving DecidableEq, Repr

/-- Whether the sub-record is the error-only shape. -/
def NetworkInfo.isErr : NetworkInfo → Bool
  | .err _ => true
  | .ok _ _ => false

/-- Embedding of `get_network_info`.  Both subprocess probes (`nslookup`
with a 5-second timeout, then `ping` with a 10-second timeout) run inside a
single `try` block: if either call raises (for example `TimeoutExpired`),
the whole function returns the error-only record; when both complete, each
boolean is its probe's exit code compared with 0. -/
def get_network_info (nslookup ping : SubprocessOutcome) : NetworkInfo :=
  match nslookup with
  | .raised e => .err ("Failed to get network info: " ++ e)
  | .completed rc _ _ =>
      match ping with
      | .raised e => .err ("Failed to get network info: " ++ e)
      | .completed rc2 _ _ => .ok (rc == 0) (rc2 == 0)

/-- The fixed, hardcoded service list of `check_services`. -/
def service_names : List String := ["sshd", "systemd-resolved", "cron"]

/-- Embedding of `check_services`, over the per-service outcome of
`systemctl is-active`: a service is active when the call completes with
stripped stdout equal to "active"; a per-service exception defaults that
service to inactive. -/
def check_services (probe : String → SubprocessOutcome) :
    List (String × Bool) :=
  service_names.map fun service =>
    match probe service with
    | .raised _ => (service, false)
    | .completed _ out _ => (service, out.trim == "active")

/-- Whether a service-status dictionary consists of a single "error" key, the
shape the other probes use for failure. -/
def servicesErrorOnly (l : List (String × Bool)) : Bool :=
  l.map Prod.fst == ["error"]

/-- Observable inputs of one `collect_metrics` snapshot: the outcome of each
probe's file read or subprocess call. -/
structure ProbeInputs where
  meminfo : Except String String
  df : SubprocessOutcome
  loadavg : Except String String
  nslookup : SubprocessOutcome
  ping : SubprocessOutcome
  systemctl : String → SubprocessOutcome

/-- The metrics snapshot dictionary of `collect_metrics`: timestamp,
hostname, and the five sub-records. -/
structure Metrics where
  timestamp : String
  hostname : String
  system : SystemInfo
  disk : DiskInfo
  cpu : CpuInfo
  network : NetworkInfo
  services : List (String × Bool)

/-- Embedding of `collect_metrics`: each sub-record is its own probe applied
to its own input. -/
def collect_metrics (timestamp hostname : String) (inp : ProbeInputs) :
    Metrics :=
  { timestamp := timestamp
    hostname := hostname
    system := get_system_info inp.meminfo
    disk := get_disk_usage inp.df
    cpu := get_cpu_info inp.loadavg
    network := get_network_info inp.nslookup inp.ping
    services := check_services inp.systemctl }

/-- One warning of `check_thresholds`, tagged by which check produced it and
carrying the value interpolated into its message. -/
inductive Warning where
  | highMemory (percent : ℚ)
  | highDisk (percent : ℚ)
  | highLoad (load : ℚ)
  | internetIssue
  | serviceDown (service : String)
deriving DecidableEq, Repr

/-- Free-text message of a warning.  The `%.1f` numeric formatting of the
source is abstracted to the exact rational's string; the fixed prefix texts
are those of the source. -/
def Warning.message : Warning → String
  | .highMemory p => "High memory usage: " ++ toString p ++ "%"
  | .highDisk p => "High disk usage: " ++ toString p ++ "%"
  | .highLoad l => "High load average: " ++ toString l
  | .internetIssue => "Internet connectivity issue detected"
  | .serviceDown s => "Service " ++ s ++ " is not running"

/-- Embedding of `check_thresholds`: strict `>` comparisons against the
static thresholds 90 (memory), 85 (disk) and 4.0 (1-minute load), a
connectivity check, and one warning per inactive service, appended in the
source's order.  A key absent from a sub-record (the error shapes) skips
that check. -/
def check_thresholds (m : Metrics) : List Warning :=
  (match m.system with
   | .ok _ _ p => if p > 90 then [.highMemory p] else []
   | .err _ => []) ++
  (match m.disk with
   | .ok _ _ _ p => if p > 85 then [.highDisk p] else []
   | .err _ => []) ++
  (match m.cpu with
   | .ok l1 _ _ => if l1 > 4 then [.highLoad l1] else []
   | .err _ => []) ++
  (match m.network with
   | .ok _ internet_reachable =>
       if !internet_reachable then [.internetIssue] else []
   | .err _ => []) ++
  m.services.filterMap (fun sv =>
    if !sv.2 then some (.serviceDown sv.1) else none)

/-! ## Helper lemmas -/

/-- The `analyze_results` loop over any starting accumulator appends, in input
order, the per-record alerts and the domains of the critical bucket. -/
lemma analyze_foldl (config : Config) (l : List CertRecord) (a : List Alert)
    (r : List String) :
    l.foldl (analyze_step config) (a, r) =
      (a ++ l.filterMap (alertOf config),
       r ++ (l.filter (needsRenewal config)).map CertRecord.domain) := by
  induction l generalizing a r with
  | nil => simp
  | cons c t ih =>
      cases c with
      | err d e days =>
          simp [analyze_step, alertOf, needsRenewal, ih]
      | valid d iss sub exp days san =>
          by_cases h1 : days ≤ config.critical_days
          · simp [analyze_step, alertOf, needsRenewal, CertRecord.domain, h1,
              ih]
          · by_cases h2 : days ≤ config.warning_days
            · simp [analyze_step, alertOf, needsRenewal, h1, h2, ih]
            · simp [analyze_step, alertOf, needsRenewal, h1, h2, ih]

/-- Closed form of `analyze_results`. -/
lemma analyze_results_eq (config : Config) (l : List CertRecord) :
    analyze_results config l =
      (l.filterMap (alertOf config),
       (l.filter (needsRenewal config)).map CertRecord.domain) := by
  simpa using analyze_foldl config l [] []

/-- Floor characterization of the whole-day difference: `timedelta.days`
(here `Int.fdiv _ usPerDay`) is the floor of the difference in days. -/
lemma fdiv_days_floor (diff : Int) :
    diff.fdiv usPerDay * usPerDay ≤ diff ∧
      diff < (diff.fdiv usPerDay + 1) * usPerDay := by
  rw [Int.fdiv_eq_ediv diff (by decide)]
  have h := Int.ediv_add_emod diff usPerDay
  have h1 : 0 ≤ diff % usPerDay := Int.emod_nonneg diff (by decide)
  have h2 : diff % usPerDay < usPerDay := Int.emod_lt_of_pos diff (by decide)
  simp only [usPerDay] at *
  omega

/-! ## Claims -/

/-- C1: for every record with status `valid`, `analyze_results` classifies it
by days-until-expiry against the configured thresholds: at
`days ≤ critical_days` it yields a critical alert and a renewal entry (the
boundary `days = critical_days` included, since `critical_days` is checked
first); at `critical_days < days ≤ warning_days` exactly one warning alert
and no renewal entry; past `warning_days` no alert.  With the default
thresholds 7/30: 7 days is critical with a renewal entry, 8 days a warning,
31 days no alert. -/
theorem threshold_classification (config : Config) (domain : String)
    (iss sub : List (String × String)) (exp days : Int) (san : List String) :
    (days ≤ config.critical_days →
        analyze_results config [.valid domain iss sub exp days san] =
          ([⟨"critical", domain,
              "Certificate expires in " ++ toString days ++ " days!"⟩],
           [domain])) ∧
    (config.critical_days < days → days ≤ config.warning_days →
        analyze_results config [.valid domain iss sub exp days san] =
          ([⟨"warning", domain,
              "Certificate expires in " ++ toString days ++ " days"⟩],
           [])) ∧
    (config.critical_days < days → config.warning_days < days →
        analyze_results config [.valid domain iss sub exp days san] =
          ([], [])) ∧
    analyze_results default_config [sampleValidRecord 7] =
      ([⟨"critical", "www.mycompany.com", "Certificate expires in 7 days!"⟩],
       ["www.mycompany.com"]) ∧
    analyze_results default_config [sampleValidRecord 8] =
      ([⟨"warning", "www.mycompany.com", "Certificate expires in 8 days"⟩],
       []) ∧
    analyze_results default_config [sampleValidRecord 31] = ([], []) := by
  refine ⟨?_, ?_, ?_, by decide, by decide, by decide⟩
  · intro h
    simp [analyze_results, analyze_step, h]
  · intro h1 h2
    have h1' : ¬ days ≤ config.critical_days := not_le.mpr h1
    simp [analyze_results, analyze_step, h1', h2]
  · intro h1 h2
    have h1' : ¬ days ≤ config.critical_days := not_le.mpr h1
    have h2' : ¬ days ≤ config.warning_days := not_le.mpr h2
    simp [analyze_results, analyze_step, h1', h2']

/-- Witness for C1: the boundary case days = critical_days = 7 under the
default configuration is critical and marked for renewal. -/
theorem threshold_classification_witness :
    (7 : Int) ≤ default_config.critical_days ∧
    analyze_results default_config
        [.valid "www.mycompany.com" [] [] 0 7 []] =
      ([⟨"critical", "www.mycompany.com", "Certificate expires in 7 days!"⟩],
       ["www.mycompany.com"]) :=
  ⟨by decide,
   (threshold_classification default_config "www.mycompany.com" [] [] 0 7
       []).1 (by decide)⟩

/-- C2: a record with status `error` always yields a critical alert whose
message reports the failed check with the record's error string, whatever its
days-until-expiry value; in a larger result list the alert is among the
produced alerts. -/
theorem error_status_critical (config : Config) (results : List CertRecord)
    (domain error : String) (days : Int) :
    analyze_results config [.err domain error days] =
      ([⟨"critical", domain, "Certificate check failed: " ++ error⟩], []) ∧
    (CertRecord.err domain error days ∈ results →
      Alert.mk "critical" domain ("Certificate check failed: " ++ error) ∈
        (analyze_results config results).1) := by
  constructor
  · simp [analyze_results, analyze_step]
  · intro hmem
    rw [analyze_results_eq]
    exact List.mem_filterMap.mpr ⟨_, hmem, rfl⟩

/-- Witness for C2: an error record with a (meaningless) positive
days-until-expiry of 99 still yields the critical check-failed alert. -/
theorem error_status_critical_witness :
    Alert.mk "critical" "api.mycompany.com"
        ("Certificate check failed: " ++ "timed out") ∈
      (analyze_results default_config
          [.err "api.mycompany.com" "timed out" 99]).1 :=
  (error_status_critical default_config
      [.err "api.mycompany.com" "timed out" 99]
      "api.mycompany.com" "timed out" 99).2 (by decide)

/-- C3: `get_cert_info` is total over every handshake outcome: on success it
returns a status-`valid` record carrying the certificate's issuer, subject,
not-after timestamp and SAN list, with `days_until_expiry` the floor of the
difference between the not-after time and the current local time in whole
days (the two inequalities pin it as the floor); on any exception it returns
a status-`error` record carrying the stringified exception. -/
theorem get_cert_info_contract (domain : String) (now : Int)
    (outcome : HandshakeOutcome) :
    (∀ cert, outcome = .ok cert →
        get_cert_info domain now outcome =
          .valid domain cert.issuer cert.subject cert.notAfter
            (Int.fdiv (cert.notAfter - now) usPerDay) cert.subjectAltName ∧
        (get_cert_info domain now outcome).status = "valid" ∧
        Int.fdiv (cert.notAfter - now) usPerDay * usPerDay ≤
            cert.notAfter - now ∧
        cert.notAfter - now <
            (Int.fdiv (cert.notAfter - now) usPerDay + 1) * usPerDay) ∧
    (∀ e, outcome = .exn e →
        get_cert_info domain now outcome = .err domain e (-1) ∧
        (get_cert_info domain now outcome).status = "error") := by
  constructor
  · intro cert h
    subst h
    exact ⟨rfl, rfl, (fdiv_days_floor _).1, (fdiv_days_floor _).2⟩
  · intro e h
    subst h
    exact ⟨rfl, rfl⟩

/-- Witness for C3: a certificate expiring exactly one day from now yields a
valid record whose days-until-expiry is the floored whole-day difference. -/
theorem get_cert_info_contract_witness :
    get_cert_info "api.mycompany.com" 0 (.ok ⟨86400000000, [], [], []⟩) =
      .valid "api.mycompany.com" [] [] 86400000000
        (Int.fdiv (86400000000 - 0) usPerDay) [] :=
  ((get_cert_info_contract "api.mycompany.com" 0
      (.ok ⟨86400000000, [], [], []⟩)).1 ⟨86400000000, [], [], []⟩ rfl).1

/-- C4: `analyze_results` is a single pass returning the per-record alerts in
input order (`filterMap` preserves the relative order of the records) and a
renewal list that consists, in input order, of exactly the domains of the
records in the critical days-until-expiry bucket; every renewal entry comes
from such a record. -/
theorem analyze_results_order (config : Config) (results : List CertRecord) :
    analyze_results config results =
      (results.filterMap (alertOf config),
       (results.filter (needsRenewal config)).map CertRecord.domain) ∧
    (∀ d ∈ (analyze_results config results).2,
      ∃ r ∈ results, needsRenewal config r = true ∧ r.domain = d) := by
  refine ⟨analyze_results_eq config results, ?_⟩
  intro d hd
  rw [analyze_results_eq] at hd
  obtain ⟨r, hr, hdom⟩ := List.mem_map.mp hd
  exact ⟨r, (List.mem_filter.mp hr).1, (List.mem_filter.mp hr).2, hdom⟩

/-- Witness for C4: a mixed list keeps input order in both outputs. -/
theorem analyze_results_order_witness :
    analyze_results default_config
        [.valid "a.com" [] [] 0 3 [], .err "b.com" "boom" (-1),
         .valid "c.com" [] [] 0 10 [], .valid "d.com" [] [] 0 2 []] =
      ([⟨"critical", "a.com", "Certificate expires in 3 days!"⟩,
        ⟨"critical", "b.com", "Certificate check failed: boom"⟩,
        ⟨"warning", "c.com", "Certificate expires in 10 days"⟩,
        ⟨"critical", "d.com", "Certificate expires in 2 days!"⟩],
       ["a.com", "d.com"]) := by
  have h := (analyze_results_order default_config
    [.valid "a.com" [] [] 0 3 [], .err "b.com" "boom" (-1),
     .valid "c.com" [] [] 0 10 [], .valid "d.com" [] [] 0 2 []]).1
  rw [h]
  decide

/-- C5: with the auto-renew flag disabled, `renew_certificate` is a no-op:
it reports `False` and invokes no subprocess at all — no certbot renewal, no
config test, no service-manager reload — whatever the domain and whatever
the subprocess environment would return. -/
theorem auto_renew_disabled_noop (config : Config) (domain : String)
    (runP : List String → SubprocessOutcome)
    (h : config.auto_renew = false) :
    renew_certificate config domain runP = (false, []) := by
  simp [renew_certificate, h]

/-- Witness for C5: the default configuration has auto-renew disabled, and
renewal invokes nothing even when every subprocess would succeed. -/
theorem auto_renew_disabled_noop_witness :
    default_config.auto_renew = false ∧
    renew_certificate default_config "api.mycompany.com"
        (fun _ => .completed 0 "" "") = (false, []) :=
  ⟨rfl, auto_renew_disabled_noop default_config "api.mycompany.com"
    (fun _ => .completed 0 "" "") rfl⟩

/-- C10: every check-failure record carries the sentinel
`days_until_expiry = -1` — the same value a certificate that genuinely
expired one day ago produces — and an error record always yields a critical
alert yet is never added to the renewal list: every renewal entry comes from
a status-`valid` record. -/
theorem error_sentinel_no_renewal :
    (∀ domain now msg,
        get_cert_info domain now (.exn msg) = .err domain msg (-1)) ∧
    (∀ domain now cert, cert.notAfter = now - usPerDay →
        (get_cert_info domain now (.ok cert)).days_until_expiry = -1 ∧
        (get_cert_info domain now (.ok cert)).status = "valid") ∧
    (∀ config domain error days,
        analyze_results config [.err domain error days] =
          ([⟨"critical", domain, "Certificate check failed: " ++ error⟩],
           [])) ∧
    (∀ config results d, d ∈ (analyze_results config results).2 →
        ∃ r ∈ results, needsRenewal config r = true ∧
          r.status = "valid" ∧ r.domain = d) := by
  refine ⟨fun _ _ _ => rfl, ?_, ?_, ?_⟩
  · intro domain now cert h
    refine ⟨?_, rfl⟩
    have hdiff : cert.notAfter - now = -usPerDay := by rw [h]; ring
    simp only [get_cert_info, CertRecord.days_until_expiry, hdiff]
    decide
  · intro config domain error days
    simp [analyze_results, analyze_step]
  · intro config results d hd
    rw [analyze_results_eq] at hd
    obtain ⟨r, hr, hdom⟩ := List.mem_map.mp hd
    refine ⟨r, (List.mem_filter.mp hr).1, (List.mem_filter.mp hr).2, ?_,
      hdom⟩
    cases r with
    | valid _ _ _ _ _ _ => rfl
    | err _ _ _ => simp [needsRenewal] at hr

/-- Witness for C10: a certificate that expired exactly one day ago yields a
valid record whose days-until-expiry equals the error sentinel -1. -/
theorem error_sentinel_no_renewal_witness :
    (get_cert_info "api.mycompany.com" 0
        (.ok ⟨-86400000000, [], [], []⟩)).days_until_expiry = -1 :=
  (error_sentinel_no_renewal.2.1 "api.mycompany.com" 0
      ⟨-86400000000, [], [], []⟩ (by decide)).1

/-- C6 (corrected): a probe failure that raises (such as the DNS subprocess
timing out) does not leave the other probe's boolean in place — the whole
network check degrades to an error-only record with no booleans at all.
Here the DNS call raises while the ping call would have completed with exit
0, yet the result is the error shape. -/
theorem network_dns_exception_drops_ping_boolean :
    get_network_info (.raised "timed out after 5 seconds")
        (.completed 0 "" "") =
      .err "Failed to get network info: timed out after 5 seconds" ∧
    NetworkInfo.isErr
        (get_network_info (.raised "timed out after 5 seconds")
          (.completed 0 "" "")) = true := by
  constructor
  · decide
  · decide

/-- C6 (amended): the two probes run sequentially inside one `try` block.
When both subprocess calls complete, each yields its own independent boolean
(exit code equal to 0) — a probe failing with a non-zero exit code still
yields the other probe's boolean — but an exception raised by either call
(for example a timeout) aborts the whole check and returns an error-only
record. -/
theorem network_probes_booleans :
    (∀ rc out er rc2 out2 er2,
        get_network_info (.completed rc out er) (.completed rc2 out2 er2) =
          .ok (rc == 0) (rc2 == 0)) ∧
    (∀ msg p, get_network_info (.raised msg) p =
        .err ("Failed to get network info: " ++ msg)) ∧
    (∀ rc out er msg,
        get_network_info (.completed rc out er) (.raised msg) =
          .err ("Failed to get network info: " ++ msg)) :=
  ⟨fun _ _ _ _ _ _ => rfl, fun _ _ => rfl, fun _ _ _ _ => rfl⟩

/-- Probe inputs in which every probe succeeds except the service-status
query, whose `systemctl` subprocess raises for every service. -/
def sampleProbeInputs : ProbeInputs where
  meminfo := .ok "MemTotal: 1000 kB\nMemAvailable: 500 kB"
  df := .completed 0
    "Filesystem 1B-blocks Used Available Use% Mounted on\n/dev/sda1 1000 400 600 40% /"
    ""
  loadavg := .ok "0.10 0.20 0.30 1/100 200"
  nslookup := .completed 0 "" ""
  ping := .completed 0 "" ""
  systemctl := fun _ => .raised "FileNotFoundError: systemctl"

/-- C7 (counterexample): when the service-status probe fails (the
`systemctl` subprocess raises for every service), the services sub-record is
not an error-only record — it is the full three-service dictionary with each
service defaulted to inactive. -/
theorem services_failure_not_error_only :
    (collect_metrics "2026-10-12T00:00:00" "host1"
        sampleProbeInputs).services =
      [("sshd", false), ("systemd-resolved", false), ("cron", false)] ∧
    servicesErrorOnly
        (collect_metrics "2026-10-12T00:00:00" "host1"
          sampleProbeInputs).services = false := by
  constructor
  · decide
  · decide

/-- C7 (amended): the snapshot always carries the given timestamp and
hostname; a failure of the memory, disk, CPU-load or network probe produces
an error-only sub-record for that probe (disk also on a non-zero `df` exit);
a failing `systemctl` query records that service as inactive rather than an
error field; and each sub-record depends only on its own probe's input, so a
failure never propagates to a sibling sub-record or aborts the snapshot. -/
theorem probe_failures_isolated (ts hn : String) (inp : ProbeInputs) :
    ((collect_metrics ts hn inp).timestamp = ts ∧
     (collect_metrics ts hn inp).hostname = hn) ∧
    (∀ e, inp.meminfo = .error e →
        ((collect_metrics ts hn inp).system).isErr = true) ∧
    (∀ e, inp.df = .raised e →
        ((collect_metrics ts hn inp).disk).isErr = true) ∧
    (∀ rc out er, inp.df = .completed rc out er → rc ≠ 0 →
        ((collect_metrics ts hn inp).disk).isErr = true) ∧
    (∀ e, inp.loadavg = .error e →
        ((collect_metrics ts hn inp).cpu).isErr = true) ∧
    (∀ e, inp.nslookup = .raised e →
        ((collect_metrics ts hn inp).network).isErr = true) ∧
    (∀ rc out er e, inp.nslookup = .completed rc out er →
        inp.ping = .raised e →
        ((collect_metrics ts hn inp).network).isErr = true) ∧
    (∀ s m, s ∈ service_names → inp.systemctl s = .raised m →
        (s, false) ∈ (collect_metrics ts hn inp).services) ∧
    (∀ inp' : ProbeInputs,
        (inp'.meminfo = inp.meminfo →
          (collect_metrics ts hn inp').system =
            (collect_metrics ts hn inp).system) ∧
        (inp'.df = inp.df →
          (collect_metrics ts hn inp').disk =
            (collect_metrics ts hn inp).disk) ∧
        (inp'.loadavg = inp.loadavg →
          (collect_metrics ts hn inp').cpu =
            (collect_metrics ts hn inp).cpu) ∧
        (inp'.nslookup = inp.nslookup → inp'.ping = inp.ping →
          (collect_metrics ts hn inp').network =
            (collect_metrics ts hn inp).network) ∧
        (inp'.systemctl = inp.systemctl →
          (collect_metrics ts hn inp').services =
            (collect_metrics ts hn inp).services)) := by
  refine ⟨⟨rfl, rfl⟩, ?_, ?_, ?_, ?_, ?_, ?_, ?_, ?_⟩
  · intro e h
    show (get_system_info inp.meminfo).isErr = true
    rw [h]
    rfl
  · intro e h
    show (get_disk_usage inp.df).isErr = true
    rw [h]
    rfl
  · intro rc out er h hrc
    show (get_disk_usage inp.df).isErr = true
    rw [h]
    simp [get_disk_usage, hrc, DiskInfo.isErr]
  · intro e h
    show (get_cpu_info inp.loadavg).isErr = true
    rw [h]
    rfl
  · intro e h
    show (get_network_info inp.nslookup inp.ping).isErr = true
    rw [h]
    rfl
  · intro rc out er e h1 h2
    show (get_network_info inp.nslookup inp.ping).isErr = true
    rw [h1, h2]
    rfl
  · intro s m hs hm
    refine List.mem_map.mpr ⟨s, hs, ?_⟩
    show (match inp.systemctl s with
          | .raised _ => (s, false)
          | .completed _ out _ => (s, out.trim == "active")) = (s, false)
    rw [hm]
  · intro inp'
    refine ⟨fun h => ?_, fun h => ?_, fun h => ?_, fun h1 h2 => ?_,
      fun h => ?_⟩
    · show get_system_info inp'.meminfo = get_system_info inp.meminfo
      rw [h]
    · show get_disk_usage inp'.df = get_disk_usage inp.df
      rw [h]
    · show get_cpu_info inp'.loadavg = get_cpu_info inp.loadavg
      rw [h]
    · show get_network_info inp'.nslookup inp'.ping =
        get_network_info inp.nslookup inp.ping
      rw [h1, h2]
    · show check_services inp'.systemctl = check_services inp.systemctl
      rw [h]

/-- Probe inputs in which every probe succeeds except the disk probe, whose
`df` subprocess completes with a non-zero exit code. -/
def failingDfInputs : ProbeInputs where
  meminfo := .ok "MemTotal: 1000 kB\nMemAvailable: 500 kB"
  df := .completed 1 "" "df: /: No such file or directory"
  loadavg := .ok "0.10 0.20 0.30 1/100 200"
  nslookup := .completed 0 "" ""
  ping := .completed 0 "" ""
  systemctl := fun _ => .completed 0 "active\n" ""

/-- Witness for amended C7: the spec's own example — a disk-usage subprocess
returning non-zero yields an error-only disk sub-record. -/
theorem probe_failures_isolated_witness :
    ((collect_metrics "2026-10-12T00:00:00" "host1"
        failingDfInputs).disk).isErr = true :=
  (probe_failures_isolated "2026-10-12T00:00:00" "host1"
      failingDfInputs).2.2.2.1 1 "" "df: /: No such file or directory" rfl
    (by decide)

/-- Warnings produced by the memory check of `check_thresholds`. -/
def isMemoryWarning : Warning → Bool
  | .highMemory _ => true
  | _ => false

/-- Warnings produced by the disk check of `check_thresholds`. -/
def isDiskWarning : Warning → Bool
  | .highDisk _ => true
  | _ => false

/-- Warnings produced by the load-average check of `check_thresholds`. -/
def isLoadWarning : Warning → Bool
  | .highLoad _ => true
  | _ => false

/-- Whether string `s` starts with `p`, at the character-list level. -/
def strStartsWith (p s : String) : Bool := p.data.isPrefixOf s.data

/-- The service-status segment of `check_thresholds` contributes no warning
of a kind other than `serviceDown`. -/
lemma countP_services_zero (p : Warning → Bool)
    (hp : ∀ s, p (.serviceDown s) = false) (l : List (String × Bool)) :
    (l.filterMap (fun sv =>
      if !sv.2 then some (Warning.serviceDown sv.1) else none)).countP p
      = 0 := by
  rw [List.countP_eq_zero]
  intro w hw
  obtain ⟨sv, _, hsv⟩ := List.mem_filterMap.mp hw
  by_cases h : !sv.2
  · simp only [h, if_pos, Option.some.injEq] at hsv
    rw [← hsv]
    simp [hp]
  · simp [h] at hsv

/-- Every memory warning's message text starts with "High memory usage",
whatever numeric value is interpolated. -/
lemma startsWith_message_highMemory (p : ℚ) :
    strStartsWith "High memory usage" (Warning.message (.highMemory p)) =
      true := by
  simp only [Warning.message, strStartsWith, String.data_append,
    List.isPrefixOf_iff_prefix]
  exact ⟨": ".data ++ ((toString p).data ++ "%".data), by simp⟩

/-- Count of each warning kind produced by `check_thresholds`: one memory
warning exactly when the memory key is present and strictly above 90, one
disk warning exactly when strictly above 85, one load warning exactly when
the 1-minute load is strictly above 4. -/
lemma check_thresholds_countP (ts hn : String) (sys : SystemInfo)
    (dsk : DiskInfo) (cpu : CpuInfo) (net : NetworkInfo)
    (svc : List (String × Bool)) :
    ((check_thresholds ⟨ts, hn, sys, dsk, cpu, net, svc⟩).countP
        isMemoryWarning =
      match sys with
      | .ok _ _ p => if p > 90 then 1 else 0
      | .err _ => 0) ∧
    ((check_thresholds ⟨ts, hn, sys, dsk, cpu, net, svc⟩).countP
        isDiskWarning =
      match dsk with
      | .ok _ _ _ q => if q > 85 then 1 else 0
      | .err _ => 0) ∧
    ((check_thresholds ⟨ts, hn, sys, dsk, cpu, net, svc⟩).countP
        isLoadWarning =
      match cpu with
      | .ok l1 _ _ => if l1 > 4 then 1 else 0
      | .err _ => 0) := by
  have hs1 := countP_services_zero isMemoryWarning (fun s => rfl) svc
  have hs2 := countP_services_zero isDiskWarning (fun s => rfl) svc
  have hs3 := countP_services_zero isLoadWarning (fun s => rfl) svc
  refine ⟨?_, ?_, ?_⟩ <;>
    cases sys <;> cases dsk <;> cases cpu <;> cases net <;>
      simp [check_thresholds, List.countP_append, List.countP_cons,
        isMemoryWarning, isDiskWarning, isLoadWarning, hs1, hs2, hs3,
        apply_ite (List.countP isMemoryWarning),
        apply_ite (List.countP isDiskWarning),
        apply_ite (List.countP isLoadWarning)]

/-- C8: warning derivation uses strict greater-than comparisons against the
static thresholds, independently per metric: a memory reading of exactly 90
produces no memory warning, 90.01 produces exactly one (whose message starts
with "High memory usage"); disk warns only strictly above 85 and 1-minute
load only strictly above 4.0. -/
theorem check_thresholds_strict (m : Metrics) :
    (∀ tb ab p, m.system = .ok tb ab p →
        (check_thresholds m).countP isMemoryWarning =
          if p > 90 then 1 else 0) ∧
    (∀ tb ab, m.system = .ok tb ab 90 →
        (check_thresholds m).countP isMemoryWarning = 0) ∧
    (∀ tb ab, m.system = .ok tb ab (9001 / 100) →
        (check_thresholds m).countP isMemoryWarning = 1) ∧
    (∀ p, strStartsWith "High memory usage"
        (Warning.message (.highMemory p)) = true) ∧
    (∀ db ub avb q, m.disk = .ok db ub avb q →
        (check_thresholds m).countP isDiskWarning =
          if q > 85 then 1 else 0) ∧
    (∀ l1 l5 l15, m.cpu = .ok l1 l5 l15 →
        (check_thresholds m).countP isLoadWarning =
          if l1 > 4 then 1 else 0) := by
  obtain ⟨ts, hn, sys, dsk, cpu, net, svc⟩ := m
  refine ⟨?_, ?_, ?_, startsWith_message_highMemory, ?_, ?_⟩
  · intro tb ab p h
    subst h
    exact (check_thresholds_countP ts hn _ dsk cpu net svc).1
  · intro tb ab h
    subst h
    have h1 := (check_thresholds_countP ts hn (.ok tb ab 90) dsk cpu net
      svc).1
    simpa using h1
  · intro tb ab h
    subst h
    have h1 := (check_thresholds_countP ts hn (.ok tb ab (9001 / 100)) dsk
      cpu net svc).1
    have h90 : (90 : ℚ) < 9001 / 100 := by norm_num
    simpa [h90] using h1
  · intro db ub avb q h
    subst h
    exact (check_thresholds_countP ts hn sys _ cpu net svc).2.1
  · intro l1 l5 l15 h
    subst h
    exact (check_thresholds_countP ts hn sys dsk _ net svc).2.2

/-- Witness for C8: a snapshot whose memory reading is 90.01 produces
exactly one memory warning. -/
theorem check_thresholds_strict_witness :
    (check_thresholds ⟨"2026-10-12T00:00:00", "host1",
        .ok 100 10 (9001 / 100), .err "e", .err "e", .err "e", []⟩).countP
      isMemoryWarning = 1 :=
  (check_thresholds_strict ⟨"2026-10-12T00:00:00", "host1",
      .ok 100 10 (9001 / 100), .err "e", .err "e", .err "e", []⟩).2.2.1
    100 10 rfl

/-- Closed form of the agreement check between the printed per-domain status
of `main`'s human output (hardcoded 7/30) and the alert level of
`analyze_results` under configured thresholds `c`, `w`. -/
lemma humanStatusAgrees_closed (c w d : Int) :
    humanStatusAgrees
        { default_config with critical_days := c, warning_days := w } d =
      if d ≤ c then (mainHumanStatus d == "CRITICAL")
      else if d ≤ w then (mainHumanStatus d == "WARNING")
      else (mainHumanStatus d == "OK") := by
  by_cases h1 : d ≤ c
  · simp [humanStatusAgrees, analyze_results, analyze_step,
      sampleValidRecord, h1]
  · by_cases h2 : d ≤ w
    · simp [humanStatusAgrees, analyze_results, analyze_step,
        sampleValidRecord, h1, h2]
    · simp [humanStatusAgrees, analyze_results, analyze_step,
        sampleValidRecord, h1, h2]

/-- C9: the human-readable per-domain status marker of `main` is computed
from the hardcoded constants 7 and 30, not from the configured thresholds;
for every configuration whose thresholds differ from the defaults (7, 30)
there is a days-until-expiry value at which the printed status disagrees
with the alert level of `analyze_results`. -/
theorem human_output_hardcoded (c w : Int) (h : ¬ (c = 7 ∧ w = 30)) :
    ∃ d : Int, humanStatusAgrees
      { default_config with critical_days := c, warning_days := w } d =
        false := by
  by_cases hc7 : c = 7
  · subst hc7
    have hw : w ≠ 30 := fun hw30 => h ⟨rfl, hw30⟩
    rcases lt_or_gt_of_ne hw with hlt | hgt
    · refine ⟨30, ?_⟩
      rw [humanStatusAgrees_closed, if_neg (show ¬ (30 : Int) ≤ 7 by omega),
        if_neg (show ¬ (30 : Int) ≤ w by omega)]
      decide
    · refine ⟨w, ?_⟩
      rw [humanStatusAgrees_closed, if_neg (show ¬ w ≤ 7 by omega),
        if_pos (le_refl w)]
      unfold mainHumanStatus
      rw [if_neg (show ¬ w ≤ 7 by omega), if_neg (show ¬ w ≤ 30 by omega)]
      decide
  · rcases lt_or_gt_of_ne hc7 with hlt | hgt
    · refine ⟨7, ?_⟩
      rw [humanStatusAgrees_closed, if_neg (show ¬ (7 : Int) ≤ c by omega)]
      by_cases h7w : (7 : Int) ≤ w
      · rw [if_pos h7w]
        decide
      · rw [if_neg h7w]
        decide
    · refine ⟨c, ?_⟩
      rw [humanStatusAgrees_closed, if_pos (le_refl c)]
      unfold mainHumanStatus
      rw [if_neg (show ¬ c ≤ 7 by omega)]
      by_cases hc30 : c ≤ 30
      · rw [if_pos hc30]
        decide
      · rw [if_neg hc30]
        decide

/-- Witness for C9: with critical_days raised to 8 (warning_days left at
30), some days value is printed with one status but alerted at another. -/
theorem human_output_hardcoded_witness :
    ∃ d : Int, humanStatusAgrees
      { default_config with critical_days := 8, warning_days := 30 } d =
        false :=
  human_output_hardcoded 8 30 (by decide)
